import Mathlib

/-!
Shallow embedding of the Disc Sales POS backend (server.js, fixed version).

The server is a set of Express handlers backed by a PostgreSQL pool.  Each
handler is modelled as a pure function from a database state (plus the
request data the handler reads) to a result record carrying the HTTP status,
the JSON body fields the handler writes, the emitted realtime events and the
database state after the call.  SQL DECIMAL(10,2) amounts are modelled as
integers counting hundredths of the currency unit (every DECIMAL(10,2) value
is an exact integer number of hundredths, and the code only adds amounts,
multiplies them by integer quantities, and compares them with zero, all of
which commute with that scaling), INTEGER columns as integers, and the bcrypt
hash/compare pair as a deterministic tagging function (compare succeeds
exactly when the hash of the supplied password equals the stored hash).
-/

namespace DiscPOS

/-- Model of bcrypt.hash: a deterministic one-way tag of the password. -/
def hashPw (s : String) : String := "bcrypt$" ++ s

/-- Model of bcrypt.compare(password, stored): succeeds iff hashing the
supplied password reproduces the stored hash. -/
def bcryptCompare (password stored : String) : Bool :=
  hashPw password == stored

/-- Row of the users table (timestamps other than last_login omitted;
last_login is NULL until the first successful login). -/
structure User where
  id : Nat
  full_name : String
  email : String
  password : String
  role : String
  status : String
  last_login : Option Nat
deriving Repr, DecidableEq

/-- Row of the products table. -/
structure Product where
  id : Nat
  name : String
  category : String
  purchase_price : Int
  selling_price : Int
  stock : Int
deriving Repr, DecidableEq

/-- Row of the sales table (date modelled as an abstract day number). -/
structure Sale where
  id : Nat
  date : Nat
  customer : String
  total : Int
  user_id : Nat
deriving Repr, DecidableEq

/-- Row of the sale_items table. -/
structure SaleItem where
  id : Nat
  sale_id : Nat
  product_id : Nat
  quantity : Int
  unit_price : Int
  total_price : Int
deriving Repr, DecidableEq

/-- The database state: the four tables plus the SERIAL counters. -/
structure DB where
  users : List User
  products : List Product
  sales : List Sale
  sale_items : List SaleItem
  nextUserId : Nat
  nextProductId : Nat
  nextSaleId : Nat
  nextSaleItemId : Nat
deriving Repr, DecidableEq

def emptyDB : DB := ⟨[], [], [], [], 1, 1, 1, 1⟩

/-- The default administrator inserted by initializeDatabase on a fresh
store: ('Super Admin', 'admin@disc.com', bcrypt('admin123'), 'superadmin',
'active'). -/
def defaultAdmin : User :=
  ⟨1, "Super Admin", "admin@disc.com", hashPw "admin123", "superadmin", "active", none⟩

/-- initializeDatabase: when the users table is missing (modelled as `none`)
it creates the four tables and inserts the default super admin; when the
tables already exist it only runs the status-column migration, which is a
no-op on this schema (status is always populated). -/
def initDatabase : Option DB → DB
  | none => { emptyDB with users := [defaultAdmin], nextUserId := 2 }
  | some db => db

/-! ## POST /api/register -/

/-- Result of the register handler: HTTP status, error message, created row
as returned (public fields of the inserted user), the requiresApproval flag,
and the database after the call. -/
structure RegisterResult where
  status : Nat
  error : Option String
  user : Option User
  requiresApproval : Option Bool
  db : DB
deriving Repr, DecidableEq

/-- POST /api/register.  Validation uses JS truthiness on the three string
fields (an absent field and the empty string are both falsy).  Then the
duplicate-email check, then COUNT(*) decides first-user status. -/
def register (db : DB) (full_name email password : String) : RegisterResult :=
  if full_name == "" || email == "" || password == "" then
    ⟨400, some "All fields are required", none, none, db⟩
  else if db.users.any (fun u => u.email == email) then
    ⟨400, some "User already exists", none, none, db⟩
  else
    let isFirstUser := db.users.length == 0
    let role := if isFirstUser then "superadmin" else "cashier"
    let st := if isFirstUser then "active" else "pending"
    let u : User := ⟨db.nextUserId, full_name, email, hashPw password, role, st, none⟩
    ⟨200, none, some u, some (!isFirstUser),
      { db with users := db.users ++ [u], nextUserId := db.nextUserId + 1 }⟩

/-! ## POST /api/login -/

/-- Payload of the signed JWT: { id, email, role, name } with expiry
expiresIn: '24h' (exp = now + 86400 seconds). -/
structure TokenPayload where
  id : Nat
  email : String
  role : String
  name : String
  exp : Nat
deriving Repr, DecidableEq

structure LoginResult where
  status : Nat
  success : Bool
  error : Option String
  token : Option TokenPayload
  user : Option User
  db : DB
deriving Repr, DecidableEq

/-- UPDATE users SET last_login = CURRENT_TIMESTAMP WHERE id = $1. -/
def touchLastLogin (db : DB) (uid : Nat) (now : Nat) : DB :=
  let touch := fun (u : User) =>
    if u.id == uid then { u with last_login := some now } else u
  { db with users := db.users.map touch }

/-- POST /api/login.  SELECT by email, bcrypt compare, active-status check;
on success update last_login and sign the token. -/
def login (db : DB) (email password : String) (now : Nat) : LoginResult :=
  match db.users.find? (fun u => u.email == email) with
  | none => ⟨400, false, some "Invalid email or password", none, none, db⟩
  | some user =>
    if bcryptCompare password user.password = false then
      ⟨400, false, some "Invalid email or password", none, none, db⟩
    else if user.status == "active" then
      ⟨200, true, none,
        some ⟨user.id, user.email, user.role, user.full_name, now + 24 * 60 * 60⟩,
        some user, touchLastLogin db user.id now⟩
    else
      ⟨400, false, some "Account is pending approval. Please contact administrator.",
        none, none, db⟩

/-! ## PUT /api/users/:id/approve -/

structure ApproveResult where
  status : Nat
  error : Option String
  user : Option User
  db : DB
deriving Repr, DecidableEq

/-- UPDATE users SET status = 'active' WHERE id = $2. -/
def setStatusActive (db : DB) (id : Nat) : DB :=
  let activate := fun (u : User) =>
    if u.id == id then { u with status := "active" } else u
  { db with users := db.users.map activate }

/-- PUT /api/users/:id/approve.  Role gate, then the status UPDATE with
RETURNING; 404 when the UPDATE matched no row. -/
def approve (db : DB) (callerRole : String) (id : Nat) : ApproveResult :=
  if (callerRole == "superadmin" || callerRole == "admin") = false then
    ⟨403, some "Access denied. Admin only.", none, db⟩
  else if db.users.any (fun u => u.id == id) then
    ⟨200, none, (setStatusActive db id).users.find? (fun u => u.id == id),
      setStatusActive db id⟩
  else
    ⟨404, some "User not found", none, db⟩

/-! ## POST /api/products -/

/-- Body of POST /api/products; absent JSON fields are `none`. -/
structure ProductReq where
  name : Option String
  category : Option String
  purchase_price : Option Int
  selling_price : Option Int
  stock : Option Int
deriving Repr, DecidableEq

/-- JS truthiness of a possibly absent string: undefined and "" are falsy. -/
def truthyStr : Option String → Bool
  | none => false
  | some s => s != ""

/-- JS truthiness of a possibly absent number: undefined and 0 are falsy. -/
def truthyNum : Option Int → Bool
  | none => false
  | some q => q != 0

structure CreateProductResult where
  status : Nat
  error : Option String
  product : Option Product
  emits : List (String × List Nat)
  db : DB
deriving Repr, DecidableEq

/-- POST /api/products.  The guard is
`if (!name || !category || !purchase_price || !selling_price)`, i.e. JS
truthiness, so a supplied price of 0 is rejected like a missing one.  On
insert, stock is `stock || 0`.  io.emit sends product_updated to every
connected socket (`conns`). -/
def createProduct (db : DB) (conns : List Nat) (req : ProductReq) : CreateProductResult :=
  if (truthyStr req.name && truthyStr req.category &&
      truthyNum req.purchase_price && truthyNum req.selling_price) = false then
    ⟨400, some "Name, category, purchase price, and selling price are required",
      none, [], db⟩
  else
    let p : Product :=
      ⟨db.nextProductId, req.name.getD "", req.category.getD "",
        req.purchase_price.getD 0, req.selling_price.getD 0, req.stock.getD 0⟩
    ⟨200, none, some p, [("product_updated", conns)],
      { db with products := db.products ++ [p], nextProductId := db.nextProductId + 1 }⟩

/-! ## POST /api/sales -/

/-- One element of the items array of a sale request. -/
structure SaleItemReq where
  product_id : Nat
  quantity : Int
  unit_price : Int
deriving Repr, DecidableEq

/-- Body of POST /api/sales.  The handler destructures only
`{ customer, items }`; any total the client supplies in the body
(`clientTotal`) is never read. -/
structure SaleReq where
  customer : String
  items : List SaleItemReq
  clientTotal : Option Int
deriving Repr, DecidableEq

/-- `items.reduce((sum, item) => sum + item.quantity * item.unit_price, 0)`. -/
def saleTotal (items : List SaleItemReq) : Int :=
  items.foldl (fun sum item => sum + item.quantity * item.unit_price) 0

/-- INSERT INTO sales: fails (foreign key users(id)) when the recording
user does not exist; otherwise appends the row. -/
def insertSale (db : DB) (date : Nat) (customer : String) (total : Int)
    (user_id : Nat) : Except String (DB × Sale) :=
  if db.users.any (fun u => u.id == user_id) then
    let s : Sale := ⟨db.nextSaleId, date, customer, total, user_id⟩
    .ok ({ db with sales := db.sales ++ [s], nextSaleId := db.nextSaleId + 1 }, s)
  else
    .error "insert or update on table sales violates foreign key constraint"

/-- INSERT INTO sale_items: fails (foreign key products(id)) when the
referenced product does not exist; total_price is quantity * unit_price. -/
def insertSaleItem (db : DB) (sale_id : Nat) (item : SaleItemReq) :
    Except String DB :=
  if db.products.any (fun p => p.id == item.product_id) then
    let row : SaleItem :=
      ⟨db.nextSaleItemId, sale_id, item.product_id, item.quantity,
        item.unit_price, item.quantity * item.unit_price⟩
    .ok { db with sale_items := db.sale_items ++ [row],
                  nextSaleItemId := db.nextSaleItemId + 1 }
  else
    .error "insert or update on table sale_items violates foreign key constraint"

/-- UPDATE products SET stock = stock - $1 WHERE id = $2.  A missing id
matches no row and is not an error. -/
def updateStock (db : DB) (product_id : Nat) (quantity : Int) : DB :=
  let dec := fun (p : Product) =>
    if p.id == product_id then { p with stock := p.stock - quantity } else p
  { db with products := db.products.map dec }

/-- The per-item loop of the sale transaction, in the order given:
insert the sale_items row, then decrement the product stock. -/
def processItems (db : DB) (sale_id : Nat) : List SaleItemReq → Except String DB
  | [] => .ok db
  | item :: rest =>
    match insertSaleItem db sale_id item with
    | .error e => .error e
    | .ok db1 => processItems (updateStock db1 item.product_id item.quantity) sale_id rest

structure CreateSaleResult where
  status : Nat
  success : Bool
  error : Option String
  sale : Option Sale
  emits : List (String × List Nat)
  db : DB
deriving Repr, DecidableEq

/-- POST /api/sales.  BEGIN; compute the total server-side; insert the sale;
loop over the items; COMMIT.  On any error the transaction is rolled back:
the resulting database is the one from before the request and the response
is a 500 with the underlying message.  On success,
`io.emit('sale_created', ...)` delivers the event to every connected socket
(`conns`), with no exclusion of any originator. -/
def createSale (db : DB) (conns : List Nat) (user_id : Nat) (date : Nat)
    (req : SaleReq) : CreateSaleResult :=
  let total := saleTotal req.items
  match insertSale db date req.customer total user_id with
  | .error e => ⟨500, false, some e, none, [], db⟩
  | .ok (db1, sale) =>
    match processItems db1 sale.id req.items with
    | .error e => ⟨500, false, some e, none, [], db⟩
    | .ok db2 => ⟨200, true, none, some sale, [("sale_created", conns)], db2⟩

/-- socket.broadcast.emit used by the client-relay handlers
(io.on 'sale_created' / 'product_updated'): every connected socket except
the sender. -/
def socketBroadcast (conns : List Nat) (sender : Nat) : List Nat :=
  conns.filter (fun c => c != sender)

/-! ## Observation helpers -/

/-- The stock of the (first) product with the given id, when it exists. -/
def findStock (db : DB) (pid : Nat) : Option Int :=
  (db.products.find? (fun p => p.id == pid)).map Product.stock

/-- Total quantity requested for a given product across the items of a sale
request. -/
def itemsQty : List SaleItemReq → Nat → Int
  | [], _ => 0
  | i :: rest, pid =>
      (if i.product_id = pid then i.quantity else 0) + itemsQty rest pid

/-- The sale_items rows the transaction loop appends for a given items list,
starting from a given SERIAL counter: each row snapshots the item's
quantity and unit_price and stores total_price = quantity * unit_price. -/
def snapshotRows (nid sale_id : Nat) : List SaleItemReq → List SaleItem
  | [] => []
  | i :: rest =>
      ⟨nid, sale_id, i.product_id, i.quantity, i.unit_price,
        i.quantity * i.unit_price⟩ :: snapshotRows (nid + 1) sale_id rest

/-! ## Concrete fixtures (used to exercise the theorems) -/

/-- An active superadmin, as created by a first registration. -/
def alice : User := ⟨1, "Alice", "a@x.com", hashPw "pw", "superadmin", "active", none⟩

/-- The product of the spec's example scenario. -/
def cdA : Product := ⟨1, "CD-A", "Disc", 5, 10, 20⟩

/-- A store holding one active superadmin and one product. -/
def baseDB : DB :=
  { emptyDB with users := [alice], products := [cdA], nextUserId := 2, nextProductId := 2 }

/-- A sale request whose single line references the missing product 7. -/
def c1req : SaleReq := ⟨"Bob", [⟨7, 1, 10⟩], none⟩

/-- A sale request listing product 1 on two separate lines. -/
def c3req : SaleReq := ⟨"Bob", [⟨1, 1, 10⟩, ⟨1, 1, 10⟩], none⟩

/-- The spec's example sale: 3 units of product 1 at 10 each. -/
def c7req : SaleReq := ⟨"Bob", [⟨1, 3, 10⟩], none⟩

/-- A product request with every field supplied and a purchase price of 0. -/
def c8req : ProductReq := ⟨some "CD-A", some "Disc", some 0, some 10, some 5⟩

/-- A product request with every field supplied and truthy. -/
def c8goodReq : ProductReq := ⟨some "CD-A", some "Disc", some 5, some 10, none⟩

/-! ## Characterization lemmas for the sale transaction -/

lemma insertSale_ok {db : DB} {date : Nat} {customer : String} {total : Int}
    {uid : Nat} {db1 : DB} {s : Sale}
    (h : insertSale db date customer total uid = .ok (db1, s)) :
    s = ⟨db.nextSaleId, date, customer, total, uid⟩ ∧
    db1 = { db with sales := db.sales ++ [s], nextSaleId := db.nextSaleId + 1 } := by
  unfold insertSale at h
  split at h
  · obtain ⟨h1, h2⟩ := Prod.mk.injEq .. ▸ (Except.ok.injEq .. ▸ h)
    subst h2; exact ⟨rfl, by rw [← h1]⟩
  · exact absurd h (by simp)

lemma insertSaleItem_ok {db : DB} {sid : Nat} {i : SaleItemReq} {db1 : DB}
    (h : insertSaleItem db sid i = .ok db1) :
    db1 = { db with
      sale_items := db.sale_items ++
        [⟨db.nextSaleItemId, sid, i.product_id, i.quantity, i.unit_price,
          i.quantity * i.unit_price⟩],
      nextSaleItemId := db.nextSaleItemId + 1 } := by
  unfold insertSaleItem at h
  split at h
  · exact (Except.ok.injEq .. ▸ h).symm
  · exact absurd h (by simp)

lemma updateStock_findStock (db : DB) (ipid : Nat) (q : Int) (pid : Nat) :
    findStock (updateStock db ipid q) pid =
      (findStock db pid).map (fun s => s - (if ipid = pid then q else 0)) := by
  unfold findStock updateStock
  rw [List.find?_map]
  have hpred : ((fun p => Product.id p == pid) ∘
      (fun p : Product => if p.id == ipid then { p with stock := p.stock - q } else p)) =
      fun p : Product => p.id == pid := by
    funext p
    simp only [Function.comp_apply]
    split <;> rfl
  rw [hpred]
  cases hf : db.products.find? (fun p => p.id == pid) with
  | none => rfl
  | some p =>
    have hp := List.find?_some hf
    have hpid : p.id = pid := by simpa using hp
    simp only [Option.map_some']
    by_cases hip : ipid = pid
    · have hb : (p.id == ipid) = true := by simp [hpid, hip]
      simp [hb, hip, hpid]
    · have hb : (p.id == ipid) = false := by
        simp only [beq_eq_false_iff_ne, ne_eq, hpid]
        omega
      simp [hb, hip]

lemma processItems_ok (items : List SaleItemReq) :
    ∀ (db : DB) (sid : Nat) (db2 : DB), processItems db sid items = .ok db2 →
      db2.users = db.users ∧ db2.sales = db.sales ∧
      db2.sale_items = db.sale_items ++ snapshotRows db.nextSaleItemId sid items ∧
      ∀ pid, findStock db2 pid = (findStock db pid).map (fun s => s - itemsQty items pid) := by
  induction items with
  | nil =>
    intro db sid db2 h
    obtain rfl : db = db2 := by simpa [processItems] using h
    refine ⟨rfl, rfl, by simp [snapshotRows], fun pid => ?_⟩
    cases findStock db pid <;> simp [itemsQty]
  | cons i rest ih =>
    intro db sid db2 h
    unfold processItems at h
    cases hins : insertSaleItem db sid i with
    | error e => rw [hins] at h; exact absurd h (by simp)
    | ok db1 =>
      rw [hins] at h
      obtain hdb1 := insertSaleItem_ok hins
      obtain ⟨hu, hs, hsi, hst⟩ := ih (updateStock db1 i.product_id i.quantity) sid db2 h
      have husers : (updateStock db1 i.product_id i.quantity).users = db.users := by
        rw [hdb1]; rfl
      have hsales : (updateStock db1 i.product_id i.quantity).sales = db.sales := by
        rw [hdb1]; rfl
      have hitems : (updateStock db1 i.product_id i.quantity).sale_items =
          db.sale_items ++
            [⟨db.nextSaleItemId, sid, i.product_id, i.quantity, i.unit_price,
              i.quantity * i.unit_price⟩] := by
        rw [hdb1]; rfl
      have hnid : (updateStock db1 i.product_id i.quantity).nextSaleItemId =
          db.nextSaleItemId + 1 := by
        rw [hdb1]; rfl
      refine ⟨by rw [hu, husers], by rw [hs, hsales], ?_, ?_⟩
      · rw [hsi, hitems, hnid, List.append_assoc]
        rfl
      · intro pid
        have hfs1 : findStock db1 pid = findStock db pid := by
          rw [hdb1]; rfl
        rw [hst pid, updateStock_findStock, hfs1, Option.map_map]
        cases findStock db pid with
        | none => rfl
        | some s =>
          simp only [Option.map_some', Function.comp_apply, itemsQty]
          by_cases hip : i.product_id = pid
          · simp [hip]; ring
          · simp [hip]

lemma createSale_cases (db : DB) (conns : List Nat) (uid date : Nat) (req : SaleReq) :
    (∃ e, createSale db conns uid date req = ⟨500, false, some e, none, [], db⟩) ∨
    (∃ sale db2,
      createSale db conns uid date req =
        ⟨200, true, none, some sale, [("sale_created", conns)], db2⟩ ∧
      sale = ⟨db.nextSaleId, date, req.customer, saleTotal req.items, uid⟩ ∧
      processItems
        { db with sales := db.sales ++ [sale], nextSaleId := db.nextSaleId + 1 }
        sale.id req.items = .ok db2) := by
  cases hins : insertSale db date req.customer (saleTotal req.items) uid with
  | error e => exact .inl ⟨e, by simp only [createSale, hins]⟩
  | ok pr =>
    obtain ⟨db1, sale⟩ := pr
    obtain ⟨hsale, hdb1⟩ := insertSale_ok hins
    cases hpi : processItems db1 sale.id req.items with
    | error e => exact .inl ⟨e, by simp only [createSale, hins, hpi]⟩
    | ok db2 =>
      refine .inr ⟨sale, db2, by simp only [createSale, hins, hpi], hsale, ?_⟩
      rw [← hdb1]
      exact hpi

/-! ## Characterization lemmas for the account endpoints -/

lemma register_success_shape {db : DB} {n e p : String} {u : User}
    (h : (register db n e p).user = some u) :
    u = ⟨db.nextUserId, n, e, hashPw p,
          if db.users.length == 0 then "superadmin" else "cashier",
          if db.users.length == 0 then "active" else "pending", none⟩ ∧
    (register db n e p).requiresApproval = some (!(db.users.length == 0)) := by
  unfold register at h ⊢
  split at h
  · exact absurd h (by simp)
  · split at h
    · exact absurd h (by simp)
    · simp only [Option.some.injEq] at h
      subst h
      split <;> simp_all

lemma touchLastLogin_find (db : DB) (uid now : Nat)
    (hex : ∃ x ∈ db.users, (x.id == uid) = true) :
    ((touchLastLogin db uid now).users.find? (fun y => y.id == uid)).map User.last_login =
      some (some now) := by
  unfold touchLastLogin
  simp only []
  rw [List.find?_map]
  have hpred : ((fun y => User.id y == uid) ∘
      (fun u : User => if u.id == uid then { u with last_login := some now } else u)) =
      fun y : User => y.id == uid := by
    funext y
    simp only [Function.comp_apply]
    split <;> rfl
  rw [hpred]
  obtain ⟨x, hxmem, hxid⟩ := hex
  have hsome : (db.users.find? (fun y => y.id == uid)).isSome := by
    rw [List.find?_isSome]
    exact ⟨x, hxmem, hxid⟩
  obtain ⟨y, hy⟩ := Option.isSome_iff_exists.mp hsome
  rw [hy]
  have hyid := List.find?_some hy
  simp only [Option.map_some']
  rw [if_pos hyid]

lemma setStatusActive_find (db : DB) (id : Nat)
    (hex : ∃ x ∈ db.users, (x.id == id) = true) :
    ((setStatusActive db id).users.find? (fun y => y.id == id)).map User.status =
      some "active" := by
  unfold setStatusActive
  simp only []
  rw [List.find?_map]
  have hpred : ((fun y => User.id y == id) ∘
      (fun u : User => if u.id == id then { u with status := "active" } else u)) =
      fun y : User => y.id == id := by
    funext y
    simp only [Function.comp_apply]
    split <;> rfl
  rw [hpred]
  obtain ⟨x, hxmem, hxid⟩ := hex
  have hsome : (db.users.find? (fun y => y.id == id)).isSome := by
    rw [List.find?_isSome]
    exact ⟨x, hxmem, hxid⟩
  obtain ⟨y, hy⟩ := Option.isSome_iff_exists.mp hsome
  rw [hy]
  have hyid := List.find?_some hy
  simp only [Option.map_some']
  rw [if_pos hyid]

lemma setStatusActive_idem (db : DB) (id : Nat) :
    setStatusActive (setStatusActive db id) id = setStatusActive db id := by
  unfold setStatusActive
  simp only [List.map_map]
  have hff : ((fun u : User => if u.id == id then { u with status := "active" } else u) ∘
      (fun u : User => if u.id == id then { u with status := "active" } else u)) =
      fun u : User => if u.id == id then { u with status := "active" } else u := by
    funext u
    simp only [Function.comp_apply]
    split
    · next hcond => simp [hcond]
    · rfl
  rw [hff]

lemma setStatusActive_any (db : DB) (id : Nat) :
    (setStatusActive db id).users.any (fun u => u.id == id) =
      db.users.any (fun u => u.id == id) := by
  unfold setStatusActive
  simp only [List.any_map]
  have hpp : ((fun u : User => u.id == id) ∘
      (fun u : User => if u.id == id then { u with status := "active" } else u)) =
      fun u : User => u.id == id := by
    funext u
    simp only [Function.comp_apply]
    split <;> rfl
  rw [hpp]

/-! ## Claim theorems -/

/-- C1: for every createSale request in which any step of the transaction
fails, the entire transaction is rolled back: afterwards the database is
exactly the one from before the request (no Sale row, no SaleItem row, no
stock change for any line persists), the caller receives a 500 error, and
no sale or realtime event is produced. -/
theorem c1_sale_failure_rolls_back (db : DB) (conns : List Nat) (uid date : Nat)
    (req : SaleReq) (h : (createSale db conns uid date req).success = false) :
    (createSale db conns uid date req).db = db ∧
    (createSale db conns uid date req).status = 500 ∧
    (createSale db conns uid date req).sale = none ∧
    (createSale db conns uid date req).emits = [] := by
  rcases createSale_cases db conns uid date req with ⟨e, hc⟩ | ⟨sale, db2, hc, _, _⟩
  · rw [hc]
    exact ⟨rfl, rfl, rfl, rfl⟩
  · rw [hc] at h
    exact absurd h (by simp)

/-- C1 witness: a sale whose single line references the nonexistent
product 7 fails, leaves the store untouched, and returns a 500. -/
theorem c1_witness :
    (createSale baseDB [] 1 0 c1req).db = baseDB ∧
    (createSale baseDB [] 1 0 c1req).status = 500 ∧
    (createSale baseDB [] 1 0 c1req).sale = none ∧
    (createSale baseDB [] 1 0 c1req).emits = [] :=
  c1_sale_failure_rolls_back baseDB [] 1 0 c1req (by decide)

/-- C2: the handler reads only customer and items from the body, so the
response is identical for any client-supplied total, and the persisted
Sale.total of a successful sale equals the server-computed sum of
quantity * unit_price over the items. -/
theorem c2_server_computed_total (db : DB) (conns : List Nat) (uid date : Nat)
    (customer : String) (items : List SaleItemReq) (t1 t2 : Option Int) :
    createSale db conns uid date ⟨customer, items, t1⟩ =
      createSale db conns uid date ⟨customer, items, t2⟩ ∧
    ∀ s : Sale, (createSale db conns uid date ⟨customer, items, t1⟩).sale = some s →
      s.total = saleTotal items ∧
      s ∈ (createSale db conns uid date ⟨customer, items, t1⟩).db.sales := by
  refine ⟨rfl, ?_⟩
  intro s hs
  rcases createSale_cases db conns uid date ⟨customer, items, t1⟩ with
    ⟨e, hc⟩ | ⟨sale, db2, hc, hsale, hpi⟩
  · rw [hc] at hs
    exact absurd hs (by simp)
  · rw [hc] at hs
    simp only [Option.some.injEq] at hs
    rw [← hs]
    obtain ⟨-, hsales, -, -⟩ := processItems_ok items _ sale.id db2 hpi
    constructor
    · rw [hsale]
    · rw [hc]
      simp only []
      rw [hsales]
      simp

/-- C2 witness: a concrete sale of 3 units at price 10, with a bogus
client-supplied total of 999, persists total 30 = saleTotal. -/
theorem c2_witness :
    Sale.total ⟨1, 0, "Bob", 30, 1⟩ = saleTotal [⟨1, 3, 10⟩] ∧
    (⟨1, 0, "Bob", 30, 1⟩ : Sale) ∈
      (createSale baseDB [] 1 0 ⟨"Bob", [⟨1, 3, 10⟩], some 999⟩).db.sales :=
  (c2_server_computed_total baseDB [] 1 0 "Bob" [⟨1, 3, 10⟩] (some 999) none).2
    ⟨1, 0, "Bob", 30, 1⟩ (by decide)

/-- C3 counterexample: the claim "stock after = stock before - Q for every
line item (P, Q)" fails when the same product appears on two lines.  Here
product 1 (stock 20) is sold on two lines of quantity 1 each: the sale
succeeds and the stock afterwards is 18, not 20 - 1. -/
theorem c3_counterexample :
    (createSale baseDB [] 1 0 c3req).success = true ∧
    (⟨1, 1, 10⟩ : SaleItemReq) ∈ c3req.items ∧
    findStock baseDB 1 = some 20 ∧
    findStock (createSale baseDB [] 1 0 c3req).db 1 = some 18 ∧
    (18 : Int) ≠ 20 - 1 := by
  refine ⟨by decide, by decide, by decide, by decide, by decide⟩

/-- C3 (amended): after a successful createSale, each product's stock
decreases by the total quantity over all line items referencing it (which
is Q when product P appears on exactly one line with quantity Q), and the
appended SaleItem rows snapshot each line's quantity, unit_price and line
total quantity * unit_price (snapshotRows). -/
theorem c3_stock_and_snapshot (db : DB) (conns : List Nat) (uid date : Nat)
    (req : SaleReq) (h : (createSale db conns uid date req).success = true) :
    ∃ s : Sale, (createSale db conns uid date req).sale = some s ∧
      (createSale db conns uid date req).db.sale_items =
        db.sale_items ++ snapshotRows db.nextSaleItemId s.id req.items ∧
      ∀ pid : Nat, findStock (createSale db conns uid date req).db pid =
        (findStock db pid).map (fun st => st - itemsQty req.items pid) := by
  rcases createSale_cases db conns uid date req with
    ⟨e, hc⟩ | ⟨sale, db2, hc, hsale, hpi⟩
  · rw [hc] at h
    exact absurd h (by simp)
  · obtain ⟨-, -, hsi, hst⟩ := processItems_ok req.items _ sale.id db2 hpi
    refine ⟨sale, by rw [hc], ?_, ?_⟩
    · rw [hc]
      simp only []
      rw [hsi]
    · intro pid
      rw [hc]
      simp only []
      rw [hst pid]
      rfl

/-- C3 witness for the amended statement: on the two-line request the stock
of product 1 drops by itemsQty = 2. -/
theorem c3_witness :
    findStock (createSale baseDB [] 1 0 c3req).db 1 =
      (findStock baseDB 1).map (fun st => st - itemsQty c3req.items 1) := by
  obtain ⟨s, hs, hsi, hst⟩ := c3_stock_and_snapshot baseDB [] 1 0 c3req (by decide)
  exact hst 1

/-- C4: whenever register creates an account, the account is superadmin and
active with requiresApproval = false exactly when the users table was empty
before the call, and cashier and pending with requiresApproval = true
otherwise. -/
theorem c4_first_registration_superadmin (db : DB) (n e p : String) (u : User)
    (h : (register db n e p).user = some u) :
    (db.users = [] →
      u.role = "superadmin" ∧ u.status = "active" ∧
      (register db n e p).requiresApproval = some false) ∧
    (db.users ≠ [] →
      u.role = "cashier" ∧ u.status = "pending" ∧
      (register db n e p).requiresApproval = some true) := by
  obtain ⟨hu, hra⟩ := register_success_shape h
  constructor
  · intro h0
    have hl : (db.users.length == 0) = true := by simp [h0]
    subst hu
    refine ⟨by simp [hl], by simp [hl], ?_⟩
    rw [hra, hl]
    rfl
  · intro h0
    have hl : (db.users.length == 0) = false := by
      simp only [beq_eq_false_iff_ne, ne_eq, List.length_eq_zero]
      exact h0
    subst hu
    refine ⟨by simp [hl], by simp [hl], ?_⟩
    rw [hra, hl]
    rfl

/-- C4 witness: registering into an empty store creates the superadmin with
requiresApproval = false; registering again creates a pending cashier with
requiresApproval = true. -/
theorem c4_witness :
    ("superadmin" = "superadmin" ∧ "active" = "active" ∧
      (register emptyDB "Alice" "a@x.com" "pw").requiresApproval = some false) ∧
    ("cashier" = "cashier" ∧ "pending" = "pending" ∧
      (register baseDB "Bob" "b@x.com" "pw").requiresApproval = some true) := by
  constructor
  · exact (c4_first_registration_superadmin emptyDB "Alice" "a@x.com" "pw"
      ⟨1, "Alice", "a@x.com", hashPw "pw", "superadmin", "active", none⟩
      (by decide)).1 rfl
  · exact (c4_first_registration_superadmin baseDB "Bob" "b@x.com" "pw"
      ⟨2, "Bob", "b@x.com", hashPw "pw", "cashier", "pending", none⟩
      (by decide)).2 (by decide)

/-- C5: login issues a token only when the email matches a stored user,
bcrypt compare accepts the password against that user's stored hash, and
the user's status is active; on success the response is a 200, the token
embeds id, email, role and display name with a 24-hour expiry, and the
stored user's last_login is set to the login time. -/
theorem c5_login_requires_active_and_match (db : DB) (e pw : String) (now : Nat)
    (tok : TokenPayload) (h : (login db e pw now).token = some tok) :
    ∃ u : User, db.users.find? (fun x => x.email == e) = some u ∧
      bcryptCompare pw u.password = true ∧
      u.status = "active" ∧
      (login db e pw now).status = 200 ∧
      (login db e pw now).success = true ∧
      tok = ⟨u.id, u.email, u.role, u.full_name, now + 24 * 60 * 60⟩ ∧
      ((login db e pw now).db.users.find? (fun x => x.id == u.id)).map User.last_login =
        some (some now) := by
  cases hf : db.users.find? (fun x => x.email == e) with
  | none =>
    have hlog : login db e pw now =
        ⟨400, false, some "Invalid email or password", none, none, db⟩ := by
      simp [login, hf]
    rw [hlog] at h
    exact absurd h (by simp)
  | some u =>
    cases hcv : bcryptCompare pw u.password with
    | false =>
      have hlog : login db e pw now =
          ⟨400, false, some "Invalid email or password", none, none, db⟩ := by
        simp [login, hf, hcv]
      rw [hlog] at h
      exact absurd h (by simp)
    | true =>
      cases hav : u.status == "active" with
      | false =>
        have hlog : login db e pw now =
            ⟨400, false,
              some "Account is pending approval. Please contact administrator.",
              none, none, db⟩ := by
          simp [login, hf, hcv, hav]
        rw [hlog] at h
        exact absurd h (by simp)
      | true =>
        have hlog : login db e pw now =
            ⟨200, true, none,
              some ⟨u.id, u.email, u.role, u.full_name, now + 24 * 60 * 60⟩,
              some u, touchLastLogin db u.id now⟩ := by
          simp [login, hf, hcv, hav]
        rw [hlog] at h
        simp only [Option.some.injEq] at h
        refine ⟨u, rfl, hcv, by simpa using hav, by rw [hlog], by rw [hlog],
          h.symm, ?_⟩
        rw [hlog]
        exact touchLastLogin_find db u.id now
          ⟨u, List.mem_of_find?_eq_some hf, by simp⟩

/-- C5 witness: the active superadmin of baseDB logs in with the right
password at time 1000 and receives the expected token. -/
theorem c5_witness :
    ∃ u : User, baseDB.users.find? (fun x => x.email == "a@x.com") = some u ∧
      bcryptCompare "pw" u.password = true ∧
      u.status = "active" ∧
      (login baseDB "a@x.com" "pw" 1000).status = 200 ∧
      (login baseDB "a@x.com" "pw" 1000).success = true ∧
      (⟨1, "a@x.com", "superadmin", "Alice", 1000 + 24 * 60 * 60⟩ : TokenPayload) =
        ⟨u.id, u.email, u.role, u.full_name, 1000 + 24 * 60 * 60⟩ ∧
      ((login baseDB "a@x.com" "pw" 1000).db.users.find? (fun x => x.id == u.id)).map
        User.last_login = some (some 1000) :=
  c5_login_requires_active_and_match baseDB "a@x.com" "pw" 1000
    ⟨1, "a@x.com", "superadmin", "Alice", 1000 + 24 * 60 * 60⟩ (by decide)

/-- C6: a login that fails because no stored user has the supplied email and
a login that fails because the password does not match the stored hash of a
matching email produce identical results: same status (400), same error
message, no token, no profile, and an unchanged store. -/
theorem c6_login_failures_indistinguishable (db : DB) (e1 p1 e2 p2 : String)
    (n1 n2 : Nat) (u : User)
    (h1 : db.users.find? (fun x => x.email == e1) = none)
    (h2 : db.users.find? (fun x => x.email == e2) = some u)
    (h3 : bcryptCompare p2 u.password = false) :
    login db e1 p1 n1 = login db e2 p2 n2 := by
  simp [login, h1, h2, h3]

/-- C6 witness: an unknown email and a wrong password against baseDB yield
literally equal responses. -/
theorem c6_witness :
    login baseDB "nobody@x.com" "pw" 1 = login baseDB "a@x.com" "wrong" 2 :=
  c6_login_failures_indistinguishable baseDB "nobody@x.com" "pw" "a@x.com" "wrong"
    1 2 alice (by decide) (by decide) (by decide)

/-- C10: initializeDatabase on a fresh store creates the tables and inserts
the default account ('Super Admin', admin@disc.com) with role superadmin and
status active, so the users table is non-empty before any registration and
every register call that creates an account afterwards creates a pending
cashier with requiresApproval = true. -/
theorem c10_init_seeds_default_admin :
    (initDatabase none).users = [defaultAdmin] ∧
    defaultAdmin.full_name = "Super Admin" ∧
    defaultAdmin.email = "admin@disc.com" ∧
    defaultAdmin.role = "superadmin" ∧
    defaultAdmin.status = "active" ∧
    (initDatabase none).users ≠ [] ∧
    ∀ (n e p : String) (u : User),
      (register (initDatabase none) n e p).user = some u →
        u.role = "cashier" ∧ u.status = "pending" ∧
        (register (initDatabase none) n e p).requiresApproval = some true := by
  refine ⟨rfl, rfl, rfl, rfl, rfl, by decide, ?_⟩
  intro n e p u h
  obtain ⟨hu, hra⟩ := register_success_shape h
  have hl : ((initDatabase none).users.length == 0) = false := by decide
  subst hu
  refine ⟨by simp [hl], by simp [hl], ?_⟩
  rw [hra, hl]
  rfl

/-- C10 witness: the first registration after a fresh initialization yields
a pending cashier requiring approval, not a superadmin. -/
theorem c10_witness :
    "cashier" = "cashier" ∧ "pending" = "pending" ∧
    (register (initDatabase none) "Bob" "b@x.com" "pw").requiresApproval = some true :=
  c10_init_seeds_default_admin.2.2.2.2.2.2 "Bob" "b@x.com" "pw"
    ⟨2, "Bob", "b@x.com", hashPw "pw", "cashier", "pending", none⟩ (by decide)

/-- C7 counterexample: the sales handler publishes sale_created with io.emit,
which delivers to every connected socket.  With sockets 1 and 2 connected and
socket 1 belonging to the client that originated the sale, the successful
sale's event goes to [1, 2] — including the originator — whereas the claim
predicts the sender-excluding recipient list socketBroadcast [1, 2] 1 = [2].
So the originating connection does receive its own echo. -/
theorem c7_counterexample :
    (createSale baseDB [1, 2] 1 0 c7req).success = true ∧
    (createSale baseDB [1, 2] 1 0 c7req).emits = [("sale_created", [1, 2])] ∧
    socketBroadcast [1, 2] 1 = [2] ∧
    (createSale baseDB [1, 2] 1 0 c7req).emits ≠
      [("sale_created", socketBroadcast [1, 2] 1)] := by
  refine ⟨by decide, by decide, by decide, by decide⟩

/-- C7 (amended): on every successful createSale the sale_created event is
delivered to all connected realtime clients with no exclusion — including
the originating client's own connection when it is connected; only the
separate client-relay path (socket.broadcast.emit) excludes the sender. -/
theorem c7_sale_created_broadcast_to_all (db : DB) (conns : List Nat)
    (uid date : Nat) (req : SaleReq)
    (h : (createSale db conns uid date req).success = true) :
    (createSale db conns uid date req).emits = [("sale_created", conns)] := by
  rcases createSale_cases db conns uid date req with
    ⟨e, hc⟩ | ⟨sale, db2, hc, -, -⟩
  · rw [hc] at h
    exact absurd h (by simp)
  · rw [hc]

/-- C7 witness: the concrete successful sale emits to the full connection
list [1, 2]. -/
theorem c7_witness :
    (createSale baseDB [1, 2] 1 0 ⟨"Ann", [⟨1, 2, 10⟩], none⟩).emits =
      [("sale_created", [1, 2])] :=
  c7_sale_created_broadcast_to_all baseDB [1, 2] 1 0
    ⟨"Ann", [⟨1, 2, 10⟩], none⟩ (by decide)

/-- C8 counterexample: a request supplying all four required fields, with the
non-negative price 0 for purchase_price, is rejected with 400 and nothing is
stored — the claim says it should be accepted. -/
theorem c8_counterexample :
    c8req.name = some "CD-A" ∧ c8req.category = some "Disc" ∧
    c8req.purchase_price = some 0 ∧ c8req.selling_price = some 10 ∧
    (0 : Int) ≥ 0 ∧ (10 : Int) ≥ 0 ∧
    (createProduct emptyDB [] c8req).status = 400 ∧
    (createProduct emptyDB [] c8req).product = none ∧
    (createProduct emptyDB [] c8req).db = emptyDB := by
  refine ⟨rfl, rfl, rfl, rfl, by decide, by decide, by decide, by decide, by decide⟩

/-- C8 (amended): createProduct fails with 400 exactly when name or category
is missing or empty, or purchase_price or selling_price is missing or equal
to 0 (JS truthiness conflates a supplied 0 price with a missing one);
otherwise the product is stored and returned with its supplied fields and
with stock defaulting to 0 when omitted. -/
theorem c8_validation_rejects_falsy (db : DB) (conns : List Nat) (req : ProductReq) :
    ((createProduct db conns req).status = 400 ↔
      (req.name = none ∨ req.name = some "" ∨
       req.category = none ∨ req.category = some "" ∨
       req.purchase_price = none ∨ req.purchase_price = some 0 ∨
       req.selling_price = none ∨ req.selling_price = some 0)) ∧
    ((createProduct db conns req).status ≠ 400 →
      ∃ p : Product, (createProduct db conns req).product = some p ∧
        (createProduct db conns req).db.products = db.products ++ [p] ∧
        p.name = req.name.getD "" ∧ p.category = req.category.getD "" ∧
        p.purchase_price = req.purchase_price.getD 0 ∧
        p.selling_price = req.selling_price.getD 0 ∧
        p.stock = req.stock.getD 0) := by
  have hval : ((truthyStr req.name && truthyStr req.category &&
      truthyNum req.purchase_price && truthyNum req.selling_price) = false) ↔
      (req.name = none ∨ req.name = some "" ∨
       req.category = none ∨ req.category = some "" ∨
       req.purchase_price = none ∨ req.purchase_price = some 0 ∨
       req.selling_price = none ∨ req.selling_price = some 0) := by
    cases req.name <;> cases req.category <;>
      cases req.purchase_price <;> cases req.selling_price <;>
      simp [truthyStr, truthyNum]
    all_goals tauto
  by_cases hg : (truthyStr req.name && truthyStr req.category &&
      truthyNum req.purchase_price && truthyNum req.selling_price) = false
  · have h400 : createProduct db conns req =
        ⟨400, some "Name, category, purchase price, and selling price are required",
          none, [], db⟩ := by
      unfold createProduct
      rw [if_pos hg]
    constructor
    · rw [h400]
      simpa using hval.mp hg
    · rw [h400]
      intro hne
      exact absurd rfl hne
  · have hsucc : createProduct db conns req =
        ⟨200, none,
          some ⟨db.nextProductId, req.name.getD "", req.category.getD "",
            req.purchase_price.getD 0, req.selling_price.getD 0, req.stock.getD 0⟩,
          [("product_updated", conns)],
          { db with
            products := db.products ++
              [⟨db.nextProductId, req.name.getD "", req.category.getD "",
                req.purchase_price.getD 0, req.selling_price.getD 0, req.stock.getD 0⟩],
            nextProductId := db.nextProductId + 1 }⟩ := by
      unfold createProduct
      rw [if_neg hg]
    constructor
    · rw [hsucc]
      exact iff_of_false (by norm_num) (fun hr => hg (hval.mpr hr))
    · intro hne
      rw [hsucc]
      exact ⟨_, rfl, rfl, rfl, rfl, rfl, rfl, rfl⟩

/-- C8 witness for the amended statement: a fully supplied, truthy request
(purchase 5, selling 10, stock omitted) is stored with stock 0. -/
theorem c8_witness :
    ∃ p : Product, (createProduct emptyDB [] c8goodReq).product = some p ∧
      (createProduct emptyDB [] c8goodReq).db.products = emptyDB.products ++ [p] ∧
      p.name = c8goodReq.name.getD "" ∧ p.category = c8goodReq.category.getD "" ∧
      p.purchase_price = c8goodReq.purchase_price.getD 0 ∧
      p.selling_price = c8goodReq.selling_price.getD 0 ∧
      p.stock = c8goodReq.stock.getD 0 :=
  (c8_validation_rejects_falsy emptyDB [] c8goodReq).2 (by decide)

/-- C9: approve is gated to roles superadmin and admin (any other caller
gets 403 and the store is unchanged), returns 404 (store unchanged) when no
user has the given id, and when a matching user exists it answers 200 with
that user's status set to active, so that applying approve a second time
returns the exact same result — idempotence, covering the already-active
case. -/
theorem c9_approve_gated_idempotent (db : DB) (role : String) (id : Nat) :
    (¬(role = "superadmin" ∨ role = "admin") →
      (approve db role id).status = 403 ∧ (approve db role id).db = db) ∧
    ((role = "superadmin" ∨ role = "admin") →
      (db.users.any (fun u => u.id == id) = false →
        (approve db role id).status = 404 ∧ (approve db role id).db = db) ∧
      (db.users.any (fun u => u.id == id) = true →
        (approve db role id).status = 200 ∧
        ((approve db role id).db.users.find? (fun u => u.id == id)).map User.status =
          some "active" ∧
        approve (approve db role id).db role id = approve db role id)) := by
  constructor
  · intro hrole
    have hb : (role == "superadmin" || role == "admin") = false := by
      simp only [Bool.or_eq_false_iff, beq_eq_false_iff_ne, ne_eq]
      exact ⟨fun h => hrole (.inl h), fun h => hrole (.inr h)⟩
    have h403 : approve db role id =
        ⟨403, some "Access denied. Admin only.", none, db⟩ := by
      unfold approve
      rw [if_pos hb]
    rw [h403]
    exact ⟨rfl, rfl⟩
  · intro hrole
    have hb : (role == "superadmin" || role == "admin") = true := by
      rcases hrole with h | h <;> simp [h]
    constructor
    · intro hany
      have h404 : approve db role id = ⟨404, some "User not found", none, db⟩ := by
        unfold approve
        rw [if_neg (by simp [hb]), if_neg (by simp [hany])]
      rw [h404]
      exact ⟨rfl, rfl⟩
    · intro hany
      have h200 : approve db role id =
          ⟨200, none, (setStatusActive db id).users.find? (fun u => u.id == id),
            setStatusActive db id⟩ := by
        unfold approve
        rw [if_neg (by simp [hb]), if_pos hany]
      have hex : ∃ x ∈ db.users, (x.id == id) = true := by
        simpa [List.any_eq_true] using hany
      refine ⟨by rw [h200], ?_, ?_⟩
      · rw [h200]
        exact setStatusActive_find db id hex
      · rw [h200]
        have hany2 : (setStatusActive db id).users.any (fun u => u.id == id) = true := by
          rw [setStatusActive_any]
          exact hany
        unfold approve
        rw [if_neg (by simp [hb]), if_pos hany2, setStatusActive_idem]

/-- C9 witness: a superadmin approving the already-active user 1 of baseDB
gets 200, the user stays active, and a second approval returns the identical
result. -/
theorem c9_witness :
    (approve baseDB "superadmin" 1).status = 200 ∧
    ((approve baseDB "superadmin" 1).db.users.find? (fun u => u.id == 1)).map
      User.status = some "active" ∧
    approve (approve baseDB "superadmin" 1).db "superadmin" 1 =
      approve baseDB "superadmin" 1 :=
  ((c9_approve_gated_idempotent baseDB "superadmin" 1).2 (Or.inl rfl)).2 (by decide)

end DiscPOS
